import Mathlib

/-! Chicks incubator, the control sketch.

A shallow embedding of `chicks incubator.cpp` (an ESP32 Arduino sketch): the
functions `setup`, `loop`, `controlTemperature` and `sendDataToServer`, over a
board state made of the GPIO output levels and the list of effects performed.
Values read from the outside world (sensor readings, the WiFi status, the HTTP
response code, the camera driver's result) are arguments of the embedded
functions.
-/

namespace ChicksIncubator

/-! ## The C++ `float` -/

/-- The value of a C++ `float`: not-a-number, one of the two infinities, or a
finite number.  A finite `float` is a rational number; the model admits every
rational, a superset of the finite `float` values, and compares exactly, as
IEEE-754 comparison does. -/
inductive F32 where
  | nan : F32
  | pinf : F32
  | ninf : F32
  | fin (q : ℚ) : F32
  deriving DecidableEq

namespace F32

/-- The C `isnan`. -/
def isnan : F32 → Bool
  | nan => true
  | _ => false

/-- The C++ `a > b` on `float`: false as soon as one operand is not-a-number. -/
def gt : F32 → F32 → Bool
  | nan, _ => false
  | _, nan => false
  | pinf, pinf => false
  | pinf, _ => true
  | ninf, _ => false
  | fin _, pinf => false
  | fin _, ninf => true
  | fin a, fin b => decide (b < a)

/-- The C++ `a < b` on `float`. -/
def lt (a b : F32) : Bool := gt b a

/-- The C++ `a <= b` on `float`: false as soon as one operand is not-a-number. -/
def le : F32 → F32 → Bool
  | nan, _ => false
  | _, nan => false
  | ninf, _ => true
  | _, pinf => true
  | pinf, _ => false
  | fin _, ninf => false
  | fin a, fin b => decide (a ≤ b)

end F32

/-! ## Pins, levels, effects -/

/-- Level of a digital output: the Arduino `LOW` and `HIGH`. -/
inductive Level where
  | LOW : Level
  | HIGH : Level
  deriving DecidableEq

/-- The Arduino pin modes. -/
inductive PinMode where
  | INPUT : PinMode
  | OUTPUT : PinMode
  deriving DecidableEq

def DHTPIN : Nat := 4
def MQ135_PIN : Nat := 34
def FAN_PIN : Nat := 5
def HEATER_PIN : Nat := 18

def ssid : String := "Your_SSID"
def password : String := "Your_PASSWORD"
def serverUrl : String := "http://your-flutter-app.com/update"

/-- An effect the sketch performs on the outside world, one constructor per
call the source makes. -/
inductive Event where
  | serialBegin (baud : Nat) : Event
  | serialPrintln (msg : String) : Event
  | wifiBegin (ssid password : String) : Event
  | delay (ms : Nat) : Event
  | dhtBegin : Event
  | wireBegin : Event
  | lightMeterBegin : Event
  | pinMode (pin : Nat) (mode : PinMode) : Event
  | digitalWrite (pin : Nat) (val : Level) : Event
  | espCameraInit : Event
  | startCameraServer : Event
  | httpBegin (url : String) : Event
  | httpAddHeader (name value : String) : Event
  | httpPOST (body : String) : Event
  | httpEnd : Event
  deriving DecidableEq

namespace Event

/-- Is the effect a write to a digital output? -/
def isDigitalWrite : Event → Bool
  | digitalWrite _ _ => true
  | _ => false

/-- Is the effect a call on the HTTP client? -/
def isNetworkCall : Event → Bool
  | httpBegin _ => true
  | httpAddHeader _ _ => true
  | httpPOST _ => true
  | httpEnd => true
  | _ => false

/-- Is the effect a `delay`? -/
def isDelay : Event → Bool
  | delay _ => true
  | _ => false

end Event

/-- The state the sketch acts on: the level last latched on each GPIO output
(by `digitalWrite`; what the library drivers do to a pin is outside the model),
and the effects performed so far, oldest first. -/
structure Board where
  pins : Nat → Level
  trace : List Event

/-- Record one effect. -/
def emit (e : Event) (b : Board) : Board :=
  { b with trace := b.trace ++ [e] }

/-- The Arduino `digitalWrite(pin, val)`: latch `val` on `pin`. -/
def digitalWrite (pin : Nat) (val : Level) (b : Board) : Board :=
  { pins := fun p => if p = pin then val else b.pins p
    trace := b.trace ++ [Event.digitalWrite pin val] }

/-- The effects performed between the board `before` and the later board `after`. -/
def newEvents (before after : Board) : List Event :=
  after.trace.drop before.trace.length

/-! ## `controlTemperature` -/

/-- The source's `controlTemperature(float temp)`.  The two thresholds, 37.5 and
35.5, are exactly representable in `float`; the fan is written first, the
heater second, in each branch. -/
def controlTemperature (temp : F32) (b : Board) : Board :=
  let tempThresholdHigh : F32 := F32.fin 37.5
  let tempThresholdLow : F32 := F32.fin 35.5
  if F32.gt temp tempThresholdHigh then
    digitalWrite HEATER_PIN Level.LOW (digitalWrite FAN_PIN Level.HIGH b)
  else if F32.lt temp tempThresholdLow then
    digitalWrite HEATER_PIN Level.HIGH (digitalWrite FAN_PIN Level.LOW b)
  else
    digitalWrite HEATER_PIN Level.LOW (digitalWrite FAN_PIN Level.LOW b)

/-! ## `sendDataToServer` -/

/-- Decimal digits of `n`, padded on the left with zeros to `width` characters. -/
def zeroPadded (width n : Nat) : String :=
  let digits := toString n
  String.mk (List.replicate (width - digits.length) '0') ++ digits

/-- The Arduino core's `String(float value, unsigned int decimalPlaces = 2)`,
the platform's default float-to-text conversion that the sketch calls as
`String(temp)`.  The constructor belongs to the platform library, not to the
sketch; it renders through `dtostrf(value, decimalPlaces + 2, decimalPlaces, buf)`:
`nan` and `inf` for the special values, otherwise an optional minus sign, the
magnitude plus half a unit of the last place (`number += rounding`), its integer
digits, and, when `decimalPlaces > 0`, a point and exactly `decimalPlaces`
digits, cut off after the last one.  The library works digit by digit in
`double`, the model computes exactly in rationals: the two can differ on exact
ties (55.125 gives 55.12 in the library, 55.13 here) and at large magnitudes, and
agree on 36.0, 55.0 and 320.5, the values the theorems below render. -/
def String_float (value : F32) (decimalPlaces : Nat) : String :=
  match value with
  | F32.nan => "nan"
  | F32.pinf => "inf"
  | F32.ninf => "inf"
  | F32.fin q =>
    let negative : Bool := decide (q < 0)
    let number : ℚ := if negative then -q else q
    let rounding : ℚ := 1 / (2 * 10 ^ decimalPlaces)
    let number : ℚ := number + rounding
    let scaled : Nat := Int.toNat ⌊number * 10 ^ decimalPlaces⌋
    let integerDigits : String := toString (scaled / 10 ^ decimalPlaces)
    let fractionDigits : String :=
      if decimalPlaces > 0 then "." ++ zeroPadded decimalPlaces (scaled % 10 ^ decimalPlaces)
      else ""
    (if negative then "-" else "") ++ integerDigits ++ fractionDigits

/-- The Arduino core's `String(int value)`: the decimal digits, base 10. -/
def String_int (value : Int) : String := toString value

/-- The text `sendDataToServer` builds in `jsonPayload`, statement by statement;
`String(temp)` is `String(temp, 2)`, the default argument written out. -/
def jsonPayload (temp hum light : F32) (gas : Int) : String :=
  let jsonPayload : String := "\x7b"
  let jsonPayload := jsonPayload ++ ("\"temperature\":" ++ String_float temp 2 ++ ",")
  let jsonPayload := jsonPayload ++ ("\"humidity\":" ++ String_float hum 2 ++ ",")
  let jsonPayload := jsonPayload ++ ("\"lightIntensity\":" ++ String_float light 2 ++ ",")
  let jsonPayload := jsonPayload ++ ("\"gasLevel\":" ++ String_int gas)
  let jsonPayload := jsonPayload ++ "\x7d"
  jsonPayload

/-- The source's `sendDataToServer(temp, hum, light, gas)`.  `wifiConnected` is
the value of `WiFi.status() == WL_CONNECTED` at the call, `httpResponseCode`
what `http.POST` returns. -/
def sendDataToServer (temp hum light : F32) (gas : Int)
    (wifiConnected : Bool) (httpResponseCode : Int) (b : Board) : Board :=
  if wifiConnected then
    let b := emit (Event.httpBegin serverUrl) b
    let b := emit (Event.httpAddHeader "Content-Type" "application/json") b
    let b := emit (Event.httpPOST (jsonPayload temp hum light gas)) b
    let b :=
      if httpResponseCode > 0 then emit (Event.serialPrintln "Data sent successfully") b
      else emit (Event.serialPrintln "Error sending data") b
    emit Event.httpEnd b
  else
    b

/-- The body of an HTTP POST effect. -/
def Event.postBody : Event → Option String
  | Event.httpPOST body => some body
  | _ => none

/-! ## `loop` -/

/-- What the outside world supplies during one call of `loop()`: the four
sensor readings, the WiFi status seen by `sendDataToServer`, and the response
code of the POST (used only when a POST is made). -/
structure Cycle where
  temperature : F32
  humidity : F32
  lightIntensity : F32
  gasLevel : Int
  wifiConnected : Bool
  httpResponseCode : Int

/-- The source's `loop()`, one call. -/
def loop (c : Cycle) (b : Board) : Board :=
  let temperature := c.temperature
  let humidity := c.humidity
  let lightIntensity := c.lightIntensity
  let gasLevel := c.gasLevel
  if F32.isnan temperature || F32.isnan humidity then
    emit (Event.serialPrintln "Failed to read from DHT sensor!") b
  else
    let b := controlTemperature temperature b
    let b := sendDataToServer temperature humidity lightIntensity gasLevel
      c.wifiConnected c.httpResponseCode b
    emit (Event.delay 5000) b

/-- The Arduino runtime calls `loop()` again and again: the boards after each
of the calls fed with `cs`, in order. -/
def runCycles : List Cycle → Board → List Board
  | [], _ => []
  | c :: cs, b => loop c b :: runCycles cs (loop c b)

/-! ## `setup` -/

/-- The source's `while (WiFi.status() != WL_CONNECTED)` loop of `setup()`, over
the successive answers to `WiFi.status() == WL_CONNECTED`.  `none`: the answers
ran out before one was true, the loop has not ended. -/
def waitForWiFi : List Bool → Board → Option Board
  | [], _ => none
  | true :: _, b => some b
  | false :: rest, b =>
    waitForWiFi rest (emit (Event.serialPrintln "Connecting to WiFi...") (emit (Event.delay 1000) b))

/-- What the outside world supplies during `setup()`: the successive answers to
`WiFi.status() == WL_CONNECTED`, and whether `esp_camera_init` returns `ESP_OK`. -/
structure Boot where
  wifiConnected : List Bool
  cameraOk : Bool

/-- The source's `setup()`; `none` when the WiFi loop has not ended. -/
def setup (env : Boot) (b : Board) : Option Board :=
  let b := emit (Event.serialBegin 115200) b
  let b := emit (Event.wifiBegin ssid password) b
  match waitForWiFi env.wifiConnected b with
  | none => none
  | some b =>
    let b := emit (Event.serialPrintln "Connected to WiFi") b
    let b := emit Event.dhtBegin b
    let b := emit Event.wireBegin b
    let b := emit Event.lightMeterBegin b
    let b := emit (Event.pinMode FAN_PIN PinMode.OUTPUT) b
    let b := emit (Event.pinMode HEATER_PIN PinMode.OUTPUT) b
    let b := emit Event.espCameraInit b
    if !env.cameraOk then
      some (emit (Event.serialPrintln "Camera initialization failed") b)
    else
      let b := emit Event.startCameraServer b
      some (emit (Event.serialPrintln "Camera streaming started") b)

/-! ## The spec's control rule -/

/-- The pair of actuator states of the spec's data model. -/
structure ActuatorState where
  heaterOn : Bool
  fanOn : Bool
  deriving DecidableEq

/-- The actuator state a board shows: an actuator is on when its pin is `HIGH`. -/
def actuators (b : Board) : ActuatorState :=
  { heaterOn := decide (b.pins HEATER_PIN = Level.HIGH)
    fanOn := decide (b.pins FAN_PIN = Level.HIGH) }

/-- The control rule as the spec words it (section 4.2), to be compared with
`controlTemperature`: above 37.5 the fan is on and the heater off, below 35.5
the heater is on and the fan off, from 35.5 to 37.5 inclusive both are off.
The spec's three cases leave out not-a-number: `none`. -/
def specDecide (t : F32) : Option ActuatorState :=
  if F32.gt t (F32.fin 37.5) then some { heaterOn := false, fanOn := true }
  else if F32.lt t (F32.fin 35.5) then some { heaterOn := true, fanOn := false }
  else if F32.le (F32.fin 35.5) t && F32.le t (F32.fin 37.5) then
    some { heaterOn := false, fanOn := false }
  else none

/-- A board with every output `LOW` and no effect performed yet. -/
def idleBoard : Board := { pins := fun _ => Level.LOW, trace := [] }

/-- A board with every output `HIGH` and no effect performed yet. -/
def allHighBoard : Board := { pins := fun _ => Level.HIGH, trace := [] }

/-! ## Shared lemmas -/

theorem fan_ne_heater : FAN_PIN ≠ HEATER_PIN := by decide

theorem newEvents_append (b : Board) (p : Nat → Level) (evs : List Event) :
    newEvents b { pins := p, trace := b.trace ++ evs } = evs := by
  simp [newEvents]

theorem emit_pins (e : Event) (b : Board) : (emit e b).pins = b.pins := rfl

/-- The two writes of one branch of `controlTemperature`, fan first, leave the
fan pin at `f` and the heater pin at `h`. -/
theorem write_fan_then_heater (f h : Level) (b : Board) :
    (digitalWrite HEATER_PIN h (digitalWrite FAN_PIN f b)).pins FAN_PIN = f ∧
    (digitalWrite HEATER_PIN h (digitalWrite FAN_PIN f b)).pins HEATER_PIN = h := by
  simp [digitalWrite, FAN_PIN, HEATER_PIN]

/-- What `t > c` says of a `float` `t`, for a finite `c`: `t` is plus infinity
or a finite number above `c`. -/
theorem F32.gt_fin_iff (t : F32) (c : ℚ) :
    F32.gt t (F32.fin c) = true ↔ t = F32.pinf ∨ ∃ q : ℚ, t = F32.fin q ∧ c < q := by
  cases t <;> simp [F32.gt]

/-- What `t <= c` says of a `float` `t`, for a finite `c`: `t` is minus infinity
or a finite number at most `c`. -/
theorem F32.le_fin_iff (t : F32) (c : ℚ) :
    F32.le t (F32.fin c) = true ↔ t = F32.ninf ∨ ∃ q : ℚ, t = F32.fin q ∧ q ≤ c := by
  cases t <;> simp [F32.le]

/-- On `float`, `a <= c` excludes `a > c`. -/
theorem F32.gt_false_of_le (a c : F32) (h : F32.le a c = true) : F32.gt a c = false := by
  cases a <;> cases c <;> simp_all [F32.gt, F32.le]

/-- The branch `controlTemperature` takes, read off the two pins. -/
theorem controlTemperature_cases (t : F32) (b : Board) :
    (F32.gt t (F32.fin 37.5) = true ∧
      (controlTemperature t b).pins FAN_PIN = Level.HIGH ∧
      (controlTemperature t b).pins HEATER_PIN = Level.LOW) ∨
    (F32.gt t (F32.fin 37.5) = false ∧ F32.lt t (F32.fin 35.5) = true ∧
      (controlTemperature t b).pins FAN_PIN = Level.LOW ∧
      (controlTemperature t b).pins HEATER_PIN = Level.HIGH) ∨
    (F32.gt t (F32.fin 37.5) = false ∧ F32.lt t (F32.fin 35.5) = false ∧
      (controlTemperature t b).pins FAN_PIN = Level.LOW ∧
      (controlTemperature t b).pins HEATER_PIN = Level.LOW) := by
  unfold controlTemperature
  by_cases h1 : F32.gt t (F32.fin 37.5) = true
  · left
    simp only [h1, if_true]
    exact ⟨trivial, write_fan_then_heater _ _ b⟩
  · right
    have h1f : F32.gt t (F32.fin 37.5) = false := by simpa using h1
    by_cases h2 : F32.lt t (F32.fin 35.5) = true
    · left
      simp only [h1f, h2, if_true]
      exact ⟨trivial, trivial, write_fan_then_heater _ _ b⟩
    · right
      have h2f : F32.lt t (F32.fin 35.5) = false := by simpa using h2
      simp only [h1f, h2f]
      exact ⟨trivial, trivial, write_fan_then_heater _ _ b⟩

/-! ## The control rule (C1, C2, C3, C7) -/

/-- C1: for every temperature `t` with `t > 37.5`, `controlTemperature t` leaves
the fan output `HIGH` and the heater output `LOW`, whatever the outputs were. -/
theorem controlTemperature_above_high (t : F32) (b : Board)
    (h : F32.gt t (F32.fin 37.5) = true) :
    (controlTemperature t b).pins FAN_PIN = Level.HIGH ∧
    (controlTemperature t b).pins HEATER_PIN = Level.LOW := by
  rcases controlTemperature_cases t b with ⟨_, hp⟩ | ⟨hf, _⟩ | ⟨hf, _⟩
  · exact hp
  · rw [h] at hf; cases hf
  · rw [h] at hf; cases hf

/-- C1 at 37.51 (the `float` nearest to it, 9833021 / 262144) and at 38.0, from
a board with the heater on and the fan off. -/
theorem controlTemperature_above_high_witness :
    (F32.gt (F32.fin (9833021 / 262144)) (F32.fin 37.5) = true ∧
      (controlTemperature (F32.fin (9833021 / 262144)) (digitalWrite HEATER_PIN Level.HIGH idleBoard)).pins
          FAN_PIN = Level.HIGH ∧
      (controlTemperature (F32.fin (9833021 / 262144)) (digitalWrite HEATER_PIN Level.HIGH idleBoard)).pins
          HEATER_PIN = Level.LOW) ∧
    (F32.gt (F32.fin 38) (F32.fin 37.5) = true ∧
      (controlTemperature (F32.fin 38) allHighBoard).pins FAN_PIN = Level.HIGH ∧
      (controlTemperature (F32.fin 38) allHighBoard).pins HEATER_PIN = Level.LOW) :=
  ⟨⟨by norm_num [F32.gt],
    controlTemperature_above_high _ _ (by norm_num [F32.gt])⟩,
   ⟨by norm_num [F32.gt],
    controlTemperature_above_high _ _ (by norm_num [F32.gt])⟩⟩

/-- C2: for every temperature `t` with `t < 35.5`, `controlTemperature t` leaves
the heater output `HIGH` and the fan output `LOW`, whatever the outputs were. -/
theorem controlTemperature_below_low (t : F32) (b : Board)
    (h : F32.lt t (F32.fin 35.5) = true) :
    (controlTemperature t b).pins HEATER_PIN = Level.HIGH ∧
    (controlTemperature t b).pins FAN_PIN = Level.LOW := by
  rcases controlTemperature_cases t b with ⟨hg, _⟩ | ⟨_, _, hp⟩ | ⟨_, hf, _⟩
  · exfalso
    cases t <;> simp_all [F32.gt, F32.lt]
    linarith
  · exact ⟨hp.2, hp.1⟩
  · rw [h] at hf; cases hf

/-- C2 at 34.0, from a board with the fan on and the heater off. -/
theorem controlTemperature_below_low_witness :
    F32.lt (F32.fin 34) (F32.fin 35.5) = true ∧
    (controlTemperature (F32.fin 34) (digitalWrite FAN_PIN Level.HIGH idleBoard)).pins
        HEATER_PIN = Level.HIGH ∧
    (controlTemperature (F32.fin 34) (digitalWrite FAN_PIN Level.HIGH idleBoard)).pins
        FAN_PIN = Level.LOW :=
  ⟨by norm_num [F32.lt, F32.gt],
   controlTemperature_below_low _ _ (by norm_num [F32.lt, F32.gt])⟩

/-- C3: for every temperature `t` with `35.5 <= t <= 37.5`, the two bounds
included, `controlTemperature t` leaves the heater output and the fan output
`LOW`, whatever the outputs were. -/
theorem controlTemperature_dead_band (t : F32) (b : Board)
    (hlow : F32.le (F32.fin 35.5) t = true) (hhigh : F32.le t (F32.fin 37.5) = true) :
    (controlTemperature t b).pins HEATER_PIN = Level.LOW ∧
    (controlTemperature t b).pins FAN_PIN = Level.LOW := by
  have hg : F32.gt t (F32.fin 37.5) = false := F32.gt_false_of_le _ _ hhigh
  have hl : F32.lt t (F32.fin 35.5) = false := F32.gt_false_of_le _ _ hlow
  rcases controlTemperature_cases t b with ⟨h, _⟩ | ⟨_, h, _⟩ | ⟨_, _, hp⟩
  · rw [hg] at h; cases h
  · rw [hl] at h; cases h
  · exact ⟨hp.2, hp.1⟩

/-- C3 at the two bounds, exactly 35.5 and exactly 37.5, from a board with
every output on. -/
theorem controlTemperature_dead_band_witness :
    (F32.le (F32.fin 35.5) (F32.fin 35.5) = true ∧ F32.le (F32.fin 35.5) (F32.fin 37.5) = true ∧
      (controlTemperature (F32.fin 35.5) allHighBoard).pins HEATER_PIN = Level.LOW ∧
      (controlTemperature (F32.fin 35.5) allHighBoard).pins FAN_PIN = Level.LOW) ∧
    (F32.le (F32.fin 35.5) (F32.fin 37.5) = true ∧ F32.le (F32.fin 37.5) (F32.fin 37.5) = true ∧
      (controlTemperature (F32.fin 37.5) allHighBoard).pins HEATER_PIN = Level.LOW ∧
      (controlTemperature (F32.fin 37.5) allHighBoard).pins FAN_PIN = Level.LOW) :=
  ⟨⟨by norm_num [F32.le], by norm_num [F32.le],
    controlTemperature_dead_band _ _ (by norm_num [F32.le]) (by norm_num [F32.le])⟩,
   ⟨by norm_num [F32.le], by norm_num [F32.le],
    controlTemperature_dead_band _ _ (by norm_num [F32.le]) (by norm_num [F32.le])⟩⟩

/-- C7: the heater and the fan are never both on after `controlTemperature`,
for every `float` (not-a-number and the infinities included) and every prior
state of the outputs. -/
theorem controlTemperature_never_both_on (t : F32) (b : Board) :
    ¬ ((controlTemperature t b).pins HEATER_PIN = Level.HIGH ∧
       (controlTemperature t b).pins FAN_PIN = Level.HIGH) := by
  rintro ⟨hh, hf⟩
  rcases controlTemperature_cases t b with ⟨_, _, hp⟩ | ⟨_, _, hp, _⟩ | ⟨_, _, hp, _⟩
  · rw [hp] at hh; cases hh
  · rw [hp] at hf; cases hf
  · rw [hp] at hf; cases hf

/-! ## The validity gate of `loop` (C4, C9) -/

/-- A call of `loop()` whose temperature or humidity is not-a-number only
prints the diagnostic. -/
theorem loop_invalid (c : Cycle) (b : Board)
    (h : F32.isnan c.temperature = true ∨ F32.isnan c.humidity = true) :
    loop c b = emit (Event.serialPrintln "Failed to read from DHT sensor!") b := by
  unfold loop
  rcases h with h | h <;> simp [h]

/-- A call of `loop()` whose temperature and humidity are numbers runs the
control rule, the report and the sleep, in that order. -/
theorem loop_valid (c : Cycle) (b : Board)
    (ht : F32.isnan c.temperature = false) (hh : F32.isnan c.humidity = false) :
    loop c b =
      emit (Event.delay 5000)
        (sendDataToServer c.temperature c.humidity c.lightIntensity c.gasLevel
          c.wifiConnected c.httpResponseCode (controlTemperature c.temperature b)) := by
  unfold loop
  simp [ht, hh]

/-- C4: a cycle of `loop()` whose temperature or humidity is not-a-number,
whatever the light and gas readings and the connectivity, writes no actuator
(no `digitalWrite`, both outputs keep their level) and makes no network call. -/
theorem loop_invalid_no_actuation_no_report (c : Cycle) (b : Board)
    (h : F32.isnan c.temperature = true ∨ F32.isnan c.humidity = true) :
    (loop c b).pins = b.pins ∧
    (newEvents b (loop c b)).filter Event.isDigitalWrite = [] ∧
    (newEvents b (loop c b)).filter Event.isNetworkCall = [] := by
  rw [loop_invalid c b h]
  refine ⟨rfl, ?_, ?_⟩ <;>
    · rw [show emit (Event.serialPrintln "Failed to read from DHT sensor!") b =
          { pins := b.pins, trace := b.trace ++ [Event.serialPrintln "Failed to read from DHT sensor!"] }
        from rfl, newEvents_append]
      rfl

/-- C4 at a snapshot with a valid temperature above the high threshold and an
invalid humidity, connected, from a board with the heater on. -/
theorem loop_invalid_no_actuation_no_report_witness :
    (F32.isnan (F32.fin 38) = true ∨ F32.isnan F32.nan = true) ∧
    (loop ⟨F32.fin 38, F32.nan, F32.fin 320.5, 410, true, 200⟩
        (digitalWrite HEATER_PIN Level.HIGH idleBoard)).pins
      = (digitalWrite HEATER_PIN Level.HIGH idleBoard).pins ∧
    (newEvents (digitalWrite HEATER_PIN Level.HIGH idleBoard)
        (loop ⟨F32.fin 38, F32.nan, F32.fin 320.5, 410, true, 200⟩
          (digitalWrite HEATER_PIN Level.HIGH idleBoard))).filter Event.isDigitalWrite = [] ∧
    (newEvents (digitalWrite HEATER_PIN Level.HIGH idleBoard)
        (loop ⟨F32.fin 38, F32.nan, F32.fin 320.5, 410, true, 200⟩
          (digitalWrite HEATER_PIN Level.HIGH idleBoard))).filter Event.isNetworkCall = [] :=
  ⟨Or.inr rfl,
   loop_invalid_no_actuation_no_report
     ⟨F32.fin 38, F32.nan, F32.fin 320.5, 410, true, 200⟩
     (digitalWrite HEATER_PIN Level.HIGH idleBoard) (Or.inr rfl)⟩

/-- C9, what the code does: a cycle of `loop()` whose temperature or humidity is
not-a-number returns right after the diagnostic; its only effect is the
`Serial.println`, and no `delay` is among its effects. -/
theorem loop_invalid_returns_without_delay (c : Cycle) (b : Board)
    (h : F32.isnan c.temperature = true ∨ F32.isnan c.humidity = true) :
    newEvents b (loop c b) = [Event.serialPrintln "Failed to read from DHT sensor!"] ∧
    (newEvents b (loop c b)).filter Event.isDelay = [] := by
  rw [loop_invalid c b h,
    show emit (Event.serialPrintln "Failed to read from DHT sensor!") b =
        { pins := b.pins, trace := b.trace ++ [Event.serialPrintln "Failed to read from DHT sensor!"] }
      from rfl, newEvents_append]
  exact ⟨rfl, rfl⟩

/-- C9 at a snapshot whose temperature is not-a-number. -/
theorem loop_invalid_returns_without_delay_witness :
    F32.isnan F32.nan = true ∧
    newEvents idleBoard (loop ⟨F32.nan, F32.fin 55, F32.fin 320.5, 410, true, 200⟩ idleBoard)
      = [Event.serialPrintln "Failed to read from DHT sensor!"] ∧
    (newEvents idleBoard
        (loop ⟨F32.nan, F32.fin 55, F32.fin 320.5, 410, true, 200⟩ idleBoard)).filter Event.isDelay
      = [] :=
  ⟨rfl,
   loop_invalid_returns_without_delay
     ⟨F32.nan, F32.fin 55, F32.fin 320.5, 410, true, 200⟩ idleBoard (Or.inl rfl)⟩

/-! ## The report (C5, C6) -/

/-- C5: when the connectivity signal is false, `sendDataToServer` does nothing
at all, for every snapshot: the board, its effects included, is the one it
was given (no `http.begin`, no header, no POST). -/
theorem sendDataToServer_not_connected (temp hum light : F32) (gas : Int)
    (httpResponseCode : Int) (b : Board) :
    sendDataToServer temp hum light gas false httpResponseCode b = b ∧
    newEvents b (sendDataToServer temp hum light gas false httpResponseCode b) = [] := by
  have h : sendDataToServer temp hum light gas false httpResponseCode b = b := rfl
  rw [h]
  exact ⟨rfl, by simp [newEvents]⟩

/-- The effects of `sendDataToServer` when connected. -/
theorem sendDataToServer_connected (temp hum light : F32) (gas : Int)
    (httpResponseCode : Int) (b : Board) :
    sendDataToServer temp hum light gas true httpResponseCode b =
      { pins := b.pins
        trace := b.trace ++
          [Event.httpBegin serverUrl,
           Event.httpAddHeader "Content-Type" "application/json",
           Event.httpPOST (jsonPayload temp hum light gas),
           Event.serialPrintln
             (if httpResponseCode > 0 then "Data sent successfully" else "Error sending data"),
           Event.httpEnd] } := by
  unfold sendDataToServer
  by_cases hc : httpResponseCode > 0 <;> simp [hc, emit]

/-- No output is written by `sendDataToServer`. -/
theorem sendDataToServer_pins (temp hum light : F32) (gas : Int) (wifiConnected : Bool)
    (httpResponseCode : Int) (b : Board) :
    (sendDataToServer temp hum light gas wifiConnected httpResponseCode b).pins = b.pins := by
  cases wifiConnected
  · rfl
  · rw [sendDataToServer_connected]

/-- The payload built for the snapshot 36.0, 55.0, 320.5, 410. -/
theorem jsonPayload_example :
    jsonPayload (F32.fin 36) (F32.fin 55) (F32.fin 320.5) 410 =
      "\x7b\"temperature\":36.00,\"humidity\":55.00,\"lightIntensity\":320.50,\"gasLevel\":410\x7d" := by
  norm_num [jsonPayload, String_float, String_int]
  decide

/-- C6 as stated fails: connected, `sendDataToServer(36.0, 55.0, 320.5, 410)` does
not post the text with the values rendered as 36.0, 55.0 and 320.5. -/
theorem sendDataToServer_body_not_one_decimal :
    (newEvents idleBoard
        (sendDataToServer (F32.fin 36) (F32.fin 55) (F32.fin 320.5) 410 true 200 idleBoard)).filterMap
        Event.postBody ≠
      ["\x7b\"temperature\":36.0,\"humidity\":55.0,\"lightIntensity\":320.5,\"gasLevel\":410\x7d"] := by
  rw [sendDataToServer_connected, newEvents_append, jsonPayload_example]
  decide

/-- C6 amended: connected, `sendDataToServer(36.0, 55.0, 320.5, 410)` makes one
POST, whose body is the four keys `temperature`, `humidity`, `lightIntensity`,
`gasLevel` in that order with the three `float` values rendered with two
decimals, 36.00, 55.00 and 320.50, and the integer as 410; this for every
prior board and every response code. -/
theorem sendDataToServer_body_two_decimals (httpResponseCode : Int) (b : Board) :
    (newEvents b
        (sendDataToServer (F32.fin 36) (F32.fin 55) (F32.fin 320.5) 410 true httpResponseCode b)).filterMap
        Event.postBody =
      ["\x7b\"temperature\":36.00,\"humidity\":55.00,\"lightIntensity\":320.50,\"gasLevel\":410\x7d"] := by
  rw [sendDataToServer_connected, newEvents_append, jsonPayload_example]
  rfl

/-! ## Cycles in sequence (C8) -/

/-- The actuator state `controlTemperature` leaves is the spec's decision, for
every temperature that is a number or an infinity. -/
theorem actuators_controlTemperature (t : F32) (b : Board) (ht : F32.isnan t = false) :
    some (actuators (controlTemperature t b)) = specDecide t := by
  have hle : F32.gt t (F32.fin 37.5) = false → F32.lt t (F32.fin 35.5) = false →
      (F32.le (F32.fin 35.5) t && F32.le t (F32.fin 37.5)) = true := by
    cases t <;> simp_all [F32.gt, F32.lt, F32.le, F32.isnan]
  unfold specDecide actuators
  rcases controlTemperature_cases t b with ⟨h1, hf, hh⟩ | ⟨h1, h2, hf, hh⟩ | ⟨h1, h2, hf, hh⟩
  · simp [h1, hf, hh]
  · simp [h1, h2, hf, hh]
  · simp [h1, h2, hf, hh, hle h1 h2]

/-- After a cycle with a valid snapshot the actuator state is the spec's
decision for the cycle's temperature, whatever the board was before, the
connectivity and the response code. -/
theorem actuators_loop (c : Cycle) (b : Board)
    (hv : F32.isnan c.temperature = false ∧ F32.isnan c.humidity = false) :
    some (actuators (loop c b)) = specDecide c.temperature := by
  rw [loop_valid c b hv.1 hv.2, ← actuators_controlTemperature c.temperature b hv.1]
  simp [actuators, emit_pins, sendDataToServer_pins]

theorem runCycles_actuators (cs : List Cycle) (b : Board)
    (hv : ∀ c ∈ cs, F32.isnan c.temperature = false ∧ F32.isnan c.humidity = false) :
    (runCycles cs b).map (fun b => some (actuators b)) =
      cs.map (fun c => specDecide c.temperature) := by
  induction cs generalizing b with
  | nil => rfl
  | cons c cs ih =>
    have hc := hv c (List.mem_cons_self c cs)
    have hcs := fun d hd => hv d (List.mem_cons_of_mem c hd)
    simp only [runCycles, List.map_cons, actuators_loop c b hc, ih (loop c b) hcs]

/-- C8: over a sequence of cycles with valid snapshots, the actuator state
after each cycle is the control rule's decision for that cycle's temperature;
two runs with the same temperatures, whatever their prior outputs, humidity,
light, gas, connectivity and HTTP response codes, end each cycle in the same
heater and fan state. -/
theorem actuators_depend_only_on_temperature (cs₁ cs₂ : List Cycle) (b₁ b₂ : Board)
    (hv₁ : ∀ c ∈ cs₁, F32.isnan c.temperature = false ∧ F32.isnan c.humidity = false)
    (hv₂ : ∀ c ∈ cs₂, F32.isnan c.temperature = false ∧ F32.isnan c.humidity = false)
    (ht : cs₁.map Cycle.temperature = cs₂.map Cycle.temperature) :
    (runCycles cs₁ b₁).map (fun b => some (actuators b)) =
      cs₁.map (fun c => specDecide c.temperature) ∧
    (runCycles cs₁ b₁).map actuators = (runCycles cs₂ b₂).map actuators := by
  have h₁ := runCycles_actuators cs₁ b₁ hv₁
  have h₂ := runCycles_actuators cs₂ b₂ hv₂
  refine ⟨h₁, ?_⟩
  have hs : cs₁.map (fun c => specDecide c.temperature) =
      cs₂.map (fun c => specDecide c.temperature) := by
    have := congrArg (List.map specDecide) ht
    simpa [List.map_map, Function.comp_def] using this
  have hsome : ((runCycles cs₁ b₁).map actuators).map some =
      ((runCycles cs₂ b₂).map actuators).map some := by
    simpa [List.map_map, Function.comp_def] using h₁.trans (hs.trans h₂.symm)
  exact (List.map_injective_iff.mpr (Option.some_injective _)) hsome

/-- C8 at the temperatures 34.0, 36.0, 38.0: one run starts with every output
off, is connected and gets 200; the other starts with every output on, is
never connected, and differs in the other readings.  Both give heater on and
fan off, then both off, then heater off and fan on. -/
theorem actuators_depend_only_on_temperature_witness :
    (runCycles
        [⟨F32.fin 34, F32.fin 55, F32.fin 320.5, 410, true, 200⟩,
         ⟨F32.fin 36, F32.fin 55, F32.fin 320.5, 410, true, 200⟩,
         ⟨F32.fin 38, F32.fin 55, F32.fin 320.5, 410, true, 200⟩] idleBoard).map actuators =
      [⟨true, false⟩, ⟨false, false⟩, ⟨false, true⟩] ∧
    (runCycles
        [⟨F32.fin 34, F32.fin 55, F32.fin 320.5, 410, true, 200⟩,
         ⟨F32.fin 36, F32.fin 55, F32.fin 320.5, 410, true, 200⟩,
         ⟨F32.fin 38, F32.fin 55, F32.fin 320.5, 410, true, 200⟩] idleBoard).map actuators =
      (runCycles
        [⟨F32.fin 34, F32.fin 60, F32.pinf, 0, false, -1⟩,
         ⟨F32.fin 36, F32.fin 61, F32.fin 0, 4095, false, 0⟩,
         ⟨F32.fin 38, F32.fin 62, F32.fin 7, 12, true, -11⟩] allHighBoard).map actuators := by
  have h := actuators_depend_only_on_temperature
    [⟨F32.fin 34, F32.fin 55, F32.fin 320.5, 410, true, 200⟩,
     ⟨F32.fin 36, F32.fin 55, F32.fin 320.5, 410, true, 200⟩,
     ⟨F32.fin 38, F32.fin 55, F32.fin 320.5, 410, true, 200⟩]
    [⟨F32.fin 34, F32.fin 60, F32.pinf, 0, false, -1⟩,
     ⟨F32.fin 36, F32.fin 61, F32.fin 0, 4095, false, 0⟩,
     ⟨F32.fin 38, F32.fin 62, F32.fin 7, 12, true, -11⟩]
    idleBoard allHighBoard
    (by simp [F32.isnan]) (by simp [F32.isnan]) (by simp)
  refine ⟨?_, h.2⟩
  have h1 := h.1
  have e1 : specDecide (F32.fin 34) = some ⟨true, false⟩ := by
    norm_num [specDecide, F32.gt, F32.lt, F32.le]
  have e2 : specDecide (F32.fin 36) = some ⟨false, false⟩ := by
    norm_num [specDecide, F32.gt, F32.lt, F32.le]
  have e3 : specDecide (F32.fin 38) = some ⟨false, true⟩ := by
    norm_num [specDecide, F32.gt, F32.lt, F32.le]
  simp only [List.map_cons, List.map_nil, e1, e2, e3] at h1
  have hinj := List.map_injective_iff.mpr (Option.some_injective ActuatorState)
  apply hinj
  simpa [List.map_map, Function.comp_def] using h1

/-! ## Initialization (C10) -/

/-- The WiFi loop of `setup()` ends as soon as one answer is "connected"; it
writes no output, and its effects are delays and prints only. -/
theorem waitForWiFi_spec (polls : List Bool) (b : Board) (h : true ∈ polls) :
    ∃ evs : List Event, waitForWiFi polls b = some { pins := b.pins, trace := b.trace ++ evs } ∧
      evs.filter Event.isDigitalWrite = [] := by
  induction polls generalizing b with
  | nil => cases h
  | cons p ps ih =>
    cases p with
    | true => exact ⟨[], by simp [waitForWiFi], rfl⟩
    | false =>
      have hps : true ∈ ps := by simpa using h
      obtain ⟨evs, he, hf⟩ :=
        ih (emit (Event.serialPrintln "Connecting to WiFi...") (emit (Event.delay 1000) b)) hps
      refine ⟨[Event.delay 1000, Event.serialPrintln "Connecting to WiFi..."] ++ evs, ?_, ?_⟩
      · rw [waitForWiFi, he]
        simp [emit]
      · simp [List.filter_append, hf, Event.isDigitalWrite]

/-- C10 as stated fails: on the path where WiFi is connected at once and the
camera starts, `setup()` returns having made no `digitalWrite` at all, and
outputs that were `HIGH` before it are still `HIGH` after it. -/
theorem setup_drives_no_output :
    (setup ⟨[true], true⟩ allHighBoard).map
        (fun b => (newEvents allHighBoard b).filter Event.isDigitalWrite) = some [] ∧
    (setup ⟨[true], true⟩ allHighBoard).map
        (fun b => (b.pins FAN_PIN, b.pins HEATER_PIN)) = some (Level.HIGH, Level.HIGH) := by
  constructor <;> decide

/-- C10 amended: whenever the WiFi loop ends, `setup()` returns, on the path
where the camera starts and on the path where it fails; it has then called
`pinMode(FAN_PIN, OUTPUT)` and `pinMode(HEATER_PIN, OUTPUT)` and has made no
`digitalWrite`, so neither output has been explicitly driven `LOW` by it. -/
theorem setup_configures_outputs_only (env : Boot) (b : Board)
    (h : true ∈ env.wifiConnected) :
    ∃ b' : Board, setup env b = some b' ∧
      Event.pinMode FAN_PIN PinMode.OUTPUT ∈ newEvents b b' ∧
      Event.pinMode HEATER_PIN PinMode.OUTPUT ∈ newEvents b b' ∧
      (newEvents b b').filter Event.isDigitalWrite = [] := by
  obtain ⟨evs, he, hf⟩ :=
    waitForWiFi_spec env.wifiConnected
      (emit (Event.wifiBegin ssid password) (emit (Event.serialBegin 115200) b)) h
  cases hc : env.cameraOk
  · refine ⟨_, by simp only [setup, he, hc]; rfl, ?_⟩
    simp only [emit, List.append_assoc, newEvents_append]
    simp [List.filter_append, hf, Event.isDigitalWrite]
  · refine ⟨_, by simp only [setup, he, hc]; rfl, ?_⟩
    simp only [emit, List.append_assoc, newEvents_append]
    simp [List.filter_append, hf, Event.isDigitalWrite]

/-- C10 amended, on the path where WiFi answers at the third poll and the
camera fails. -/
theorem setup_configures_outputs_only_witness :
    true ∈ [false, false, true] ∧
    ∃ b' : Board, setup ⟨[false, false, true], false⟩ allHighBoard = some b' ∧
      Event.pinMode FAN_PIN PinMode.OUTPUT ∈ newEvents allHighBoard b' ∧
      Event.pinMode HEATER_PIN PinMode.OUTPUT ∈ newEvents allHighBoard b' ∧
      (newEvents allHighBoard b').filter Event.isDigitalWrite = [] :=
  ⟨by decide, setup_configures_outputs_only ⟨[false, false, true], false⟩ allHighBoard (by decide)⟩

end ChicksIncubator
